import Mathlib

/-
  Shallow embedding of express-redis-simple-cache (src/src/index.ts and
  src/src/log.ts): the key deriver `generateCacheKey` with its auth-cookie
  heuristic `getAuthCookie`, and the caching middleware `cache` /
  `cacheMiddleware` with its two response-write wrappers.

  JavaScript conventions modelled explicitly:
  - an `undefined` value is `Option.none`; a JS falsy-string coercion
    (`v || null`, `v || DEFAULT`) is modelled by testing for the empty
    string / zero explicitly;
  - a thrown exception is `Except.error` with the platform error message;
  - the middleware and the wrappers are modelled as functions from their
    inputs to a record of every observable effect (store reads and writes,
    log calls, header mutations, response writes, pipeline continuation).
-/

namespace ExpressRedisCache

/-- Severity of a log call, as passed to the `log` helper in log.ts. -/
inductive Severity where
  | log
  | warn
  | error
  | debug
deriving Repr, DecidableEq

/-- One call to the `log` helper: message text and severity. -/
structure LogCall where
  msg : String
  sev : Severity
deriving Repr, DecidableEq

/-- The opening brace character, `\x7b`. -/
def braceOpen : Char := Char.ofNat 123

/-- The closing brace character, `\x7d`. -/
def braceClose : Char := Char.ofNat 125

/-- The one-character string holding the opening brace. -/
def braceOpenStr : String := String.singleton braceOpen

/-- Structured (JSON) values, with integer numerals. -/
inductive Json where
  | null
  | bool (b : Bool)
  | num (n : Int)
  | str (s : String)
  | arr (elems : List Json)
  | obj (fields : List (String × Json))
deriving Repr

/-- Escape a string for JSON output (quote, backslash, newline). -/
def escapeString (s : String) : String :=
  s.data.foldl (fun acc c =>
    if c = '"' then acc ++ "\\\""
    else if c = '\\' then acc ++ "\\\\"
    else if c = '\n' then acc ++ "\\n"
    else acc.push c) ""

/-- Join strings with commas. -/
def joinComma : List String → String
  | [] => ""
  | [s] => s
  | s :: rest => s ++ "," ++ joinComma rest

/-- Models the platform `JSON.stringify` on the `Json` model. -/
def stringifyJson : Json → String
  | Json.null => "null"
  | Json.bool true => "true"
  | Json.bool false => "false"
  | Json.num n => toString n
  | Json.str s => "\"" ++ escapeString s ++ "\""
  | Json.arr elems => "[" ++ joinComma (elems.attach.map (fun e => stringifyJson e.1)) ++ "]"
  | Json.obj fields =>
      braceOpenStr
        ++ joinComma (fields.attach.map
            (fun f => "\"" ++ escapeString f.1.1 ++ "\":" ++ stringifyJson f.1.2))
        ++ String.singleton braceClose
decreasing_by
  · have h := List.sizeOf_lt_of_mem e.2
    simp at h ⊢
    omega
  · have h := List.sizeOf_lt_of_mem f.2
    obtain ⟨⟨a, b⟩, hm⟩ := f
    simp at h ⊢
    omega

/-- Whitespace skipping for the JSON reader. -/
def skipWs (cs : List Char) : List Char :=
  cs.dropWhile (fun c => c = ' ' || c = '\n' || c = '\t' || c = '\r')

/-- Consume an expected literal character sequence. -/
def dropLit : List Char → List Char → Option (List Char)
  | [], cs => some cs
  | l :: ls, c :: cs => if c = l then dropLit ls cs else none
  | _ :: _, [] => none

/-- Map an escape character after a backslash to the character it denotes. -/
def escChar (c : Char) : Option Char :=
  if c = '"' then some '"'
  else if c = '\\' then some '\\'
  else if c = '/' then some '/'
  else if c = 'n' then some '\n'
  else if c = 't' then some '\t'
  else if c = 'r' then some '\r'
  else none

/-- Read the body of a JSON string up to the closing quote. -/
def parseStrChars : List Char → Option (List Char × List Char)
  | [] => none
  | '"' :: rest => some ([], rest)
  | '\\' :: c :: rest =>
      match escChar c with
      | none => none
      | some e =>
        match parseStrChars rest with
        | none => none
        | some (s, r) => some (e :: s, r)
  | c :: rest =>
      match parseStrChars rest with
      | none => none
      | some (s, r) => some (c :: s, r)

/-- Read a decimal natural number. -/
def parseNat (cs : List Char) : Option (Nat × List Char) :=
  let digits := cs.takeWhile Char.isDigit
  let rest := cs.dropWhile Char.isDigit
  if digits.isEmpty then none
  else some (digits.foldl (fun acc c => acc * 10 + (c.toNat - 48)) 0, rest)

mutual

/-- Fuelled JSON value reader: models the platform `JSON.parse` (integer
numerals, no unicode escapes). Returns the value and the remaining input. -/
def parseJsonF : Nat → List Char → Option (Json × List Char)
  | 0, _ => none
  | fuel + 1, cs =>
    match skipWs cs with
    | [] => none
    | c :: rest =>
      if c = braceOpen then
        match skipWs rest with
        | c2 :: rest2 =>
          if c2 = braceClose then some (Json.obj [], rest2)
          else parseObjFields fuel (c2 :: rest2)
        | [] => none
      else if c = '[' then
        match skipWs rest with
        | c2 :: rest2 =>
          if c2 = ']' then some (Json.arr [], rest2)
          else parseArrElems fuel (c2 :: rest2)
        | [] => none
      else if c = '"' then
        match parseStrChars rest with
        | some (s, r) => some (Json.str (String.mk s), r)
        | none => none
      else if c = 'n' then
        match dropLit ['u', 'l', 'l'] rest with
        | some r => some (Json.null, r)
        | none => none
      else if c = 't' then
        match dropLit ['r', 'u', 'e'] rest with
        | some r => some (Json.bool true, r)
        | none => none
      else if c = 'f' then
        match dropLit ['a', 'l', 's', 'e'] rest with
        | some r => some (Json.bool false, r)
        | none => none
      else if c = '-' then
        match parseNat rest with
        | some (n, r) => some (Json.num (-(n : Int)), r)
        | none => none
      else if c.isDigit then
        match parseNat (c :: rest) with
        | some (n, r) => some (Json.num (n : Int), r)
        | none => none
      else none

/-- Read the elements of a nonempty JSON array, up to the closing bracket. -/
def parseArrElems : Nat → List Char → Option (Json × List Char)
  | 0, _ => none
  | fuel + 1, cs =>
    match parseJsonF fuel cs with
    | none => none
    | some (j, r) =>
      match skipWs r with
      | c :: r2 =>
        if c = ',' then
          match parseArrElems fuel r2 with
          | some (Json.arr js, r3) => some (Json.arr (j :: js), r3)
          | _ => none
        else if c = ']' then some (Json.arr [j], r2)
        else none
      | [] => none

/-- Read the fields of a nonempty JSON object, up to the closing brace. -/
def parseObjFields : Nat → List Char → Option (Json × List Char)
  | 0, _ => none
  | fuel + 1, cs =>
    match skipWs cs with
    | c :: rest =>
      if c = '"' then
        match parseStrChars rest with
        | some (k, r) =>
          match skipWs r with
          | c2 :: r2 =>
            if c2 = ':' then
              match parseJsonF fuel r2 with
              | some (v, r3) =>
                match skipWs r3 with
                | c3 :: r4 =>
                  if c3 = ',' then
                    match parseObjFields fuel r4 with
                    | some (Json.obj fs, r5) => some (Json.obj ((String.mk k, v) :: fs), r5)
                    | _ => none
                  else if c3 = braceClose then some (Json.obj [(String.mk k, v)], r4)
                  else none
                | [] => none
              | none => none
            else none
          | [] => none
        | none => none
      else none
    | [] => none

end

/-- Models `JSON.parse`: parse a full string, requiring all input consumed;
`none` is a thrown SyntaxError. -/
def parseJson (s : String) : Option Json :=
  match parseJsonF (s.length + 1) s.data with
  | some (j, rest) => if (skipWs rest).isEmpty then some j else none
  | none => none

/-- A route cache configuration (the `cache` field of `Route` in index.ts).
The `type` discriminant is kept as a string, matching the runtime `switch`
on `route.cache?.type`. -/
structure CacheSpec where
  expire : Option Nat
  type : String
  customCookie : Option String
deriving Repr, DecidableEq

/-- A registered route (the `Route` type of index.ts). -/
structure Route where
  method : String
  route : String
  cache : Option CacheSpec
deriving Repr, DecidableEq

/-- An incoming request, as the middleware reads it: `req.url`,
`req.originalUrl`, `req.cookies` (`none` when the cookie mapping itself is
undefined on the request, e.g. no cookie-parser installed), `req.headers`
(node lowercases stored header names). -/
structure Request where
  url : String
  originalUrl : Option String
  cookies : Option (List (String × String))
  headers : List (String × String)
deriving Repr, DecidableEq

/-- The redis client as the middleware observes it: the `isReady` flag and
the stored key-value contents read by `get`. -/
structure Store where
  ready : Bool
  contents : List (String × String)
deriving Repr, DecidableEq

/-- Models `redis.get key`: the stored value, or `none` when absent. -/
def storeGet (store : Store) (key : String) : Option String :=
  store.contents.lookup key

/-- Models `s.startsWith(p)` on the character lists. -/
def strStartsWith (s p : String) : Bool :=
  p.data.isPrefixOf s.data

/-- Models the JS coercion `v || null` on an undefined-or-string value:
an empty (falsy) string collapses to null. -/
def jsOrNull : Option String → Option String
  | some s => if s = "" then none else some s
  | none => none

/-- First defined value in a list of JS lookups: models
`list.find(value => value !== undefined)`. -/
def firstDefined : List (Option String) → Option String
  | [] => none
  | some v :: _ => some v
  | none :: rest => firstDefined rest

/-- The fixed ordered cookie-name list of `getAuthCookie` (log.ts). -/
def commonAuthCookieNames : List String :=
  ["authToken", "accessToken", "refreshToken", "idToken", "jwt", "token",
   "sessionToken", "auth_token", "access_token", "refresh_token", "bearer_token"]

/-- The fixed ordered header-name list of `getAuthCookie` (log.ts). -/
def commonAuthHeaderNames : List String :=
  ["Authorization", "X-Auth-Token", "X-Access-Token", "X-Refresh-Token",
   "X-ID-Token", "X-API-key", "Token", "Auth-Token"]

/-- Embeds `getAuthCookie` (log.ts). The source reads `req.cookies[name]`
with no guard, so an undefined cookie mapping throws a TypeError
(`Except.error`). The cookie pass is
`commonAuthCookieNames.map(...).find(v => v !== undefined) || null`; when it
yields null the header pass runs with the same shape. -/
def getAuthCookie (req : Request) : Except String (Option String) :=
  match req.cookies with
  | none => Except.error "TypeError: Cannot read properties of undefined"
  | some cookies =>
    match jsOrNull (firstDefined (commonAuthCookieNames.map (fun name => cookies.lookup name))) with
    | some v => Except.ok (some v)
    | none =>
      Except.ok (jsOrNull (firstDefined
        (commonAuthHeaderNames.map (fun name => req.headers.lookup name.toLower))))

/-- Result of `generateCacheKey`: the derived key (`none` models the
returned `false`) and the log calls emitted while deriving. -/
structure KeyResult where
  key : Option String
  logs : List LogCall
deriving Repr, DecidableEq

/-- Embeds `generateCacheKey` (log.ts): the `switch` on `route.cache?.type`
with its four cases and the silent `return false` fallthrough. The JS
truthiness test `if (route.cache.customCookie)` makes an empty-string name
fall into the error branch. -/
def generateCacheKey (route : Route) (req : Request) : Except String KeyResult :=
  let method := route.method
  let routePath := route.route
  match route.cache with
  | none => Except.ok ⟨none, []⟩
  | some spec =>
    if spec.type = "always" then
      Except.ok ⟨some ("cache:" ++ method ++ ":" ++ routePath), []⟩
    else if spec.type = "per-auth-token" then
      match getAuthCookie req with
      | Except.error e => Except.error e
      | Except.ok none =>
        Except.ok ⟨none,
          [⟨"No auth cookie found in request. Cache will not be applied. Please use per-custom-cookie and set your custom cookie name.", Severity.warn⟩]⟩
      | Except.ok (some t) =>
        Except.ok ⟨some ("cache:" ++ method ++ ":" ++ routePath ++ ":" ++ t), []⟩
    else if spec.type = "per-request-url" then
      Except.ok ⟨some ("cache:" ++ method ++ ":" ++ req.url), []⟩
    else if spec.type = "per-custom-cookie" then
      match spec.customCookie with
      | some name =>
        if name = "" then
          Except.ok ⟨none,
            [⟨"Custom cookie is not defined for per-custom-cookie cache type.", Severity.error⟩]⟩
        else
          let cookies := req.cookies.getD []
          let customCookieValue := (cookies.lookup name).getD ""
          if customCookieValue = "" then
            Except.ok ⟨none,
              [⟨"Custom cookie \"" ++ name ++ "\" not found in request. Cache will not be applied.", Severity.warn⟩]⟩
          else
            Except.ok ⟨some ("cache:" ++ method ++ ":" ++ routePath ++ ":" ++ customCookieValue), []⟩
      | none =>
        Except.ok ⟨none,
          [⟨"Custom cookie is not defined for per-custom-cookie cache type.", Severity.error⟩]⟩
    else
      Except.ok ⟨none, []⟩

/-- `DEFAULT_CACHE_TTL` of index.ts. -/
def DEFAULT_CACHE_TTL : Nat := 60

/-- The TTL expression `route.cache?.expire || DEFAULT_CACHE_TTL` used in
both write wrappers: any falsy `expire` (absent or 0) yields the default. -/
def cacheExpireOrDefault (route : Route) : Nat :=
  match route.cache with
  | none => DEFAULT_CACHE_TTL
  | some spec =>
    match spec.expire with
    | none => DEFAULT_CACHE_TTL
    | some e => if e = 0 then DEFAULT_CACHE_TTL else e

/-- A JS value a handler may pass to a response write entry point. -/
inductive JsVal where
  | str (s : String)
  | num (n : Int)
  | obj (j : Json)
deriving Repr

/-- Models `typeof body === 'object'`. -/
def jsTypeofObject : JsVal → Bool
  | JsVal.obj _ => true
  | _ => false

/-- The string value `redis.set` receives for a body. -/
def jsValToStoreString : JsVal → String
  | JsVal.str s => s
  | JsVal.num n => toString n
  | JsVal.obj j => stringifyJson j

/-- Observable effects of one invocation of an installed write wrapper:
store `set` calls (key, value, TTL seconds), the body handed to the
original write entry point (`none` when it was never invoked), whether the
wrapper re-signalled pipeline continuation, and its log calls. -/
structure WrapperOutcome where
  storeWrites : List (String × String × Nat)
  delivered : Option JsVal
  nextCalled : Bool
  logs : List LogCall
deriving Repr

/-- Embeds the wrapper installed over `res.send` on a miss (index.ts): on a
failed readiness re-check it does `return next()`; otherwise it serializes
an object body, stores it with the route TTL, logs, and invokes the
original `res.send` (saved as `res.sendResponse`) with the possibly
serialized body. -/
def resSendWrapper (route : Route) (cacheKey : String) (store : Store) (body : JsVal) :
    WrapperOutcome :=
  if store.ready = false then
    ⟨[], none, true, []⟩
  else
    let body2 := if jsTypeofObject body then JsVal.str (jsValToStoreString body) else body
    ⟨[(cacheKey, jsValToStoreString body2, cacheExpireOrDefault route)],
     some body2, false,
     [⟨"Data cached for key: " ++ cacheKey, Severity.debug⟩]⟩

/-- Embeds the wrapper installed over `res.json` on a miss (index.ts): on a
failed readiness re-check it does `return next()`; otherwise it stores the
serialized body with the route TTL, logs, and invokes the original
`res.json` with the unserialized body. -/
def resJsonWrapper (route : Route) (cacheKey : String) (store : Store) (body : Json) :
    WrapperOutcome :=
  if store.ready = false then
    ⟨[], none, true, []⟩
  else
    ⟨[(cacheKey, stringifyJson body, cacheExpireOrDefault route)],
     some (JsVal.obj body), false,
     [⟨"JSON Data cached for key: " ++ cacheKey, Severity.debug⟩]⟩

/-- A response write performed directly by the middleware on a hit:
either the raw entry point `res.send` or the structured one `res.json`. -/
inductive WriteAction where
  | send (body : String)
  | json (body : Json)
deriving Repr

/-- Observable effects of one middleware invocation: store reads, log
calls, header mutations, direct response writes, whether `next()` was
signalled, the key for which each write wrapper was installed (`none` if
not installed), and a thrown error if the invocation raised. -/
structure MwOutcome where
  storeReads : List String
  logs : List LogCall
  headers : List (String × String)
  writes : List WriteAction
  nextCalled : Bool
  sendWrapped : Option String
  jsonWrapped : Option String
  errorThrown : Option String
deriving Repr

/-- The pass-through outcome: `next()` and nothing else. -/
def passOutcome : MwOutcome :=
  { storeReads := [], logs := [], headers := [], writes := [], nextCalled := true,
    sendWrapped := none, jsonWrapped := none, errorThrown := none }

/-- The miss branch of the middleware: debug log, both wrappers installed
for the derived key, then `next()`. -/
def missOutcome (cacheKey : String) (klogs : List LogCall) : MwOutcome :=
  { storeReads := [cacheKey]
    logs := klogs ++ [⟨"Cache miss for key: " ++ cacheKey, Severity.debug⟩]
    headers := []
    writes := []
    nextCalled := true
    sendWrapped := some cacheKey
    jsonWrapped := some cacheKey
    errorThrown := none }

/-- The hit branch of the middleware: debug log, `X-Cache: HIT` header,
then dispatch on the first character of the stored value; a value that
looks structured but fails `JSON.parse` throws after the header was set. -/
def hitOutcome (cacheKey : String) (klogs : List LogCall) (data : String) : MwOutcome :=
  let hitLogs := klogs ++ [⟨"Cache hit for key: " ++ cacheKey, Severity.debug⟩]
  if strStartsWith data braceOpenStr || strStartsWith data "[" then
    match parseJson data with
    | some j =>
      { storeReads := [cacheKey], logs := hitLogs, headers := [("X-Cache", "HIT")],
        writes := [WriteAction.json j], nextCalled := false,
        sendWrapped := none, jsonWrapped := none, errorThrown := none }
    | none =>
      { storeReads := [cacheKey], logs := hitLogs, headers := [("X-Cache", "HIT")],
        writes := [], nextCalled := false,
        sendWrapped := none, jsonWrapped := none,
        errorThrown := some "SyntaxError: Unexpected token in JSON" }
  else
    { storeReads := [cacheKey], logs := hitLogs, headers := [("X-Cache", "HIT")],
      writes := [WriteAction.send data], nextCalled := false,
      sendWrapped := none, jsonWrapped := none, errorThrown := none }

/-- Embeds the per-request body of the middleware returned by
`cacheMiddleware` (index.ts): readiness re-check, key derivation (a thrown
TypeError propagates), warn-and-pass on failed derivation, `redis.get`,
then the miss or hit branch. A stored empty string is falsy in
`if (!data)` and therefore a miss. -/
def cacheMiddlewareRun (route : Route) (req : Request) (store : Store) : MwOutcome :=
  if store.ready = false then
    passOutcome
  else
    match generateCacheKey route req with
    | Except.error e =>
      { storeReads := [], logs := [], headers := [], writes := [], nextCalled := false,
        sendWrapped := none, jsonWrapped := none, errorThrown := some e }
    | Except.ok kr =>
      match kr.key with
      | none =>
        { storeReads := []
          logs := kr.logs ++ [⟨"Cache key generation failed. Cache will not be applied.", Severity.warn⟩]
          headers := [], writes := [], nextCalled := true,
          sendWrapped := none, jsonWrapped := none, errorThrown := none }
      | some cacheKey =>
        match storeGet store cacheKey with
        | none => missOutcome cacheKey kr.logs
        | some d => if d = "" then missOutcome cacheKey kr.logs else hitOutcome cacheKey kr.logs d

/-- Embeds `cacheMiddleware` (index.ts): the construction-time readiness
check returns a permanent pass-through when the store handle is not ready
at build time; otherwise the per-request function. -/
def cacheMiddleware (route : Route) (buildStore : Store) : Request → Store → MwOutcome :=
  if buildStore.ready = false then
    fun _ _ => passOutcome
  else
    fun req store => cacheMiddlewareRun route req store

/-- Embeds the factory `cache` (index.ts): a route with a cache spec gets
the caching middleware, any other route gets a plain pass-through. -/
def cache (route : Route) (buildStore : Store) : Request → Store → MwOutcome :=
  match route.cache with
  | some _ => cacheMiddleware route buildStore
  | none => fun _ _ => passOutcome

/-- Modelled from the spec: the cookie pass of auth-token discovery as the
claim words it — return the first cookie name whose value is defined,
empty string included. Stated only to be compared with the source cookie
pass inside `getAuthCookie`. -/
def cookiePassClaimed (cookies : List (String × String)) : Option String :=
  firstDefined (commonAuthCookieNames.map (fun name => cookies.lookup name))

/-- C1: the spec claims the interceptor never raises to the caller — every
failure path (missing cookie mapping included) degrades to serving
normally without caching. The code violates this: for a `per-auth-token`
route, a request whose cookie mapping is undefined makes `getAuthCookie`
read the cookie object with no guard, so the invocation throws a TypeError
— no `next()`, no response write — instead of passing through. -/
theorem C1_missing_cookie_mapping_raises :
    (cacheMiddlewareRun ⟨"GET", "/users", some ⟨none, "per-auth-token", none⟩⟩
        ⟨"/users", none, none, []⟩ ⟨true, []⟩).errorThrown
        = some "TypeError: Cannot read properties of undefined" ∧
    (cacheMiddlewareRun ⟨"GET", "/users", some ⟨none, "per-auth-token", none⟩⟩
        ⟨"/users", none, none, []⟩ ⟨true, []⟩).nextCalled = false ∧
    (cacheMiddlewareRun ⟨"GET", "/users", some ⟨none, "per-auth-token", none⟩⟩
        ⟨"/users", none, none, []⟩ ⟨true, []⟩).writes = [] :=
  ⟨rfl, rfl, rfl⟩

/-- C2: the claim says that when the raw-write wrapper finds the store
not ready it skips the store write and passes the original body through
without re-signalling continuation. The code instead does `return next()`:
the store write is skipped, but the body is never handed to the original
raw-write and the pipeline is signalled a second time — exactly the
behavior §9 of the spec flags as a likely unintended defect. -/
theorem C2_wrapper_not_ready_recalls_next :
    resSendWrapper ⟨"GET", "/users", some ⟨some 120, "always", none⟩⟩ "cache:GET:/users"
        ⟨false, []⟩ (JsVal.str "hello")
      = ⟨[], none, true, []⟩ :=
  rfl

/-- C3 (counterexample): with cookie mapping `authToken = ""` and
`jwt = "abc"`, the claimed cookie pass (first defined value, empty string
qualifying) yields `""`, but the code coerces the empty find result to
null via `|| null` and yields nothing from the cookies — nor does it move
on to `jwt` — so the discovery result is the header-pass fallback. -/
theorem C3_empty_cookie_value_counterexample :
    getAuthCookie ⟨"/", none, some [("authToken", ""), ("jwt", "abc")], []⟩ = Except.ok none ∧
    cookiePassClaimed [("authToken", ""), ("jwt", "abc")] = some "" ∧
    (some "" : Option String) ≠ none ∧ (none : Option String) ≠ some "abc" :=
  ⟨rfl, rfl, by simp, by simp⟩

/-- C3 (amended): the cookie pass finds the first cookie of the fixed
ordered list whose value is defined; if that value is non-empty it is
returned, but an empty-string value is coerced to null by the trailing
falsy check, so derivation falls through to the header pass rather than
using the empty value or moving to the next cookie name. -/
theorem C3_cookie_pass_amended (req : Request) (cookies : List (String × String)) (v : String)
    (hc : req.cookies = some cookies)
    (hfirst : firstDefined (commonAuthCookieNames.map (fun name => cookies.lookup name)) = some v) :
    (v ≠ "" → getAuthCookie req = Except.ok (some v)) ∧
    (v = "" → getAuthCookie req = Except.ok (jsOrNull (firstDefined
        (commonAuthHeaderNames.map (fun name => req.headers.lookup name.toLower))))) := by
  constructor
  · intro hne
    simp [getAuthCookie, hc, hfirst, jsOrNull, hne]
  · intro he
    simp [getAuthCookie, hc, hfirst, jsOrNull, he]

/-- Witness for the amended C3 at a concrete request. -/
theorem C3_cookie_pass_amended_witness :
    getAuthCookie ⟨"/", none, some [("jwt", "abc")], []⟩ = Except.ok (some "abc") := by
  have h := C3_cookie_pass_amended ⟨"/", none, some [("jwt", "abc")], []⟩ [("jwt", "abc")] "abc"
    rfl rfl
  exact h.1 (by simp)

/-- C4: end-to-end miss path. When the store is ready, the key derives,
and the lookup is empty (or the falsy empty string), the middleware
installs both write wrappers for the derived key and signals continuation
without writing a response; and whenever the raw-write wrapper later fires
with a string body against a ready store, the store receives a set of that
key with exactly that body and the resolved TTL, and the original
raw-write receives the same body. -/
theorem C4_miss_end_to_end (route : Route) (req : Request) (store : Store)
    (cacheKey : String) (klogs : List LogCall)
    (hready : store.ready = true)
    (hkey : generateCacheKey route req = Except.ok ⟨some cacheKey, klogs⟩)
    (hmiss : storeGet store cacheKey = none ∨ storeGet store cacheKey = some "") :
    (cacheMiddlewareRun route req store).sendWrapped = some cacheKey ∧
    (cacheMiddlewareRun route req store).jsonWrapped = some cacheKey ∧
    (cacheMiddlewareRun route req store).nextCalled = true ∧
    (cacheMiddlewareRun route req store).writes = [] ∧
    (cacheMiddlewareRun route req store).errorThrown = none ∧
    (∀ (body : String) (store2 : Store), store2.ready = true →
      resSendWrapper route cacheKey store2 (JsVal.str body) =
        ⟨[(cacheKey, body, cacheExpireOrDefault route)], some (JsVal.str body), false,
         [⟨"Data cached for key: " ++ cacheKey, Severity.debug⟩]⟩) := by
  have hrun : cacheMiddlewareRun route req store = missOutcome cacheKey klogs := by
    rcases hmiss with h | h <;>
      simp [cacheMiddlewareRun, hready, hkey, h]
  refine ⟨?_, ?_, ?_, ?_, ?_, ?_⟩
  · rw [hrun]; rfl
  · rw [hrun]; rfl
  · rw [hrun]; rfl
  · rw [hrun]; rfl
  · rw [hrun]; rfl
  · intro body store2 h2
    simp [resSendWrapper, h2, jsTypeofObject, jsValToStoreString]

/-- Witness for C4 at the concrete scenario of the spec. -/
theorem C4_miss_end_to_end_witness :
    (cacheMiddlewareRun ⟨"GET", "/users", some ⟨some 120, "always", none⟩⟩
        ⟨"/users", some "/users", some [], []⟩ ⟨true, []⟩).nextCalled = true ∧
    resSendWrapper ⟨"GET", "/users", some ⟨some 120, "always", none⟩⟩ "cache:GET:/users"
        ⟨true, []⟩ (JsVal.str "hello")
      = ⟨[("cache:GET:/users", "hello", 120)], some (JsVal.str "hello"), false,
         [⟨"Data cached for key: cache:GET:/users", Severity.debug⟩]⟩ := by
  have h := C4_miss_end_to_end ⟨"GET", "/users", some ⟨some 120, "always", none⟩⟩
    ⟨"/users", some "/users", some [], []⟩ ⟨true, []⟩ "cache:GET:/users" [] rfl rfl (Or.inl rfl)
  exact ⟨h.2.2.1, h.2.2.2.2.2 "hello" ⟨true, []⟩ rfl⟩

/-- C5: end-to-end hit path. When the store is ready, the key derives and
the lookup returns a non-empty value, the middleware sets `X-Cache: HIT`,
never signals continuation and installs no wrapper; the write dispatches
on the first character of the value — a value starting with a brace or a
bracket (when it parses) goes through the structured-write entry point
with the parsed value, any other value goes through raw-write verbatim. -/
theorem C5_hit_end_to_end (route : Route) (req : Request) (store : Store)
    (cacheKey d : String) (klogs : List LogCall)
    (hready : store.ready = true)
    (hkey : generateCacheKey route req = Except.ok ⟨some cacheKey, klogs⟩)
    (hhit : storeGet store cacheKey = some d) (hne : d ≠ "")
    (hparse : (strStartsWith d braceOpenStr || strStartsWith d "[") = true →
      (parseJson d).isSome = true) :
    (cacheMiddlewareRun route req store).headers = [("X-Cache", "HIT")] ∧
    (cacheMiddlewareRun route req store).nextCalled = false ∧
    (cacheMiddlewareRun route req store).sendWrapped = none ∧
    (cacheMiddlewareRun route req store).jsonWrapped = none ∧
    (cacheMiddlewareRun route req store).errorThrown = none ∧
    ((strStartsWith d braceOpenStr || strStartsWith d "[") = true →
      ∃ j, parseJson d = some j ∧
        (cacheMiddlewareRun route req store).writes = [WriteAction.json j]) ∧
    ((strStartsWith d braceOpenStr || strStartsWith d "[") = false →
      (cacheMiddlewareRun route req store).writes = [WriteAction.send d]) := by
  have hrun : cacheMiddlewareRun route req store = hitOutcome cacheKey klogs d := by
    simp [cacheMiddlewareRun, hready, hkey, hhit, hne]
  rw [hrun]
  unfold hitOutcome
  cases hb : (strStartsWith d braceOpenStr || strStartsWith d "[") with
  | true =>
    obtain ⟨j, hj⟩ := Option.isSome_iff_exists.mp (hparse hb)
    simp [hb, hj]
  | false =>
    simp [hb]

/-- Witness for C5 at the concrete raw scenario of the spec. -/
theorem C5_hit_end_to_end_witness :
    (cacheMiddlewareRun ⟨"GET", "/users", some ⟨some 60, "always", none⟩⟩
        ⟨"/users", some "/users", some [], []⟩
        ⟨true, [("cache:GET:/users", "cached-body")]⟩).headers = [("X-Cache", "HIT")] ∧
    (cacheMiddlewareRun ⟨"GET", "/users", some ⟨some 60, "always", none⟩⟩
        ⟨"/users", some "/users", some [], []⟩
        ⟨true, [("cache:GET:/users", "cached-body")]⟩).nextCalled = false ∧
    (cacheMiddlewareRun ⟨"GET", "/users", some ⟨some 60, "always", none⟩⟩
        ⟨"/users", some "/users", some [], []⟩
        ⟨true, [("cache:GET:/users", "cached-body")]⟩).writes
      = [WriteAction.send "cached-body"] := by
  have h := C5_hit_end_to_end ⟨"GET", "/users", some ⟨some 60, "always", none⟩⟩
    ⟨"/users", some "/users", some [], []⟩ ⟨true, [("cache:GET:/users", "cached-body")]⟩
    "cache:GET:/users" "cached-body" [] rfl rfl rfl (by decide)
    (by decide)
  exact ⟨h.1, h.2.1, h.2.2.2.2.2.2 (by decide)⟩

/-- C6 (counterexample): a `per-custom-cookie` spec whose cookie name is
set but empty is treated by the JS truthiness test like an unset name: the
code logs the configuration message at error severity, not the
cookie-not-found warning the claim predicts for a set name. -/
theorem C6_empty_custom_cookie_name_counterexample :
    generateCacheKey ⟨"GET", "/cart", some ⟨none, "per-custom-cookie", some ""⟩⟩
        ⟨"/cart", none, some [], []⟩
      = Except.ok ⟨none,
          [⟨"Custom cookie is not defined for per-custom-cookie cache type.", Severity.error⟩]⟩ ∧
    Severity.error ≠ Severity.warn :=
  ⟨rfl, by decide⟩

/-- C6 (amended): for a `per-custom-cookie` route, an unset — or set but
empty, since the code tests JS truthiness — cookie name logs the
configuration message at error severity and derives no key for every
request; a set non-empty name whose cookie is absent or empty on the
request logs at warning severity and derives no key for that request. -/
theorem C6_custom_cookie_amended (route : Route) (req : Request) (spec : CacheSpec)
    (hc : route.cache = some spec) (ht : spec.type = "per-custom-cookie") :
    ((spec.customCookie = none ∨ spec.customCookie = some "") →
      generateCacheKey route req
        = Except.ok ⟨none,
            [⟨"Custom cookie is not defined for per-custom-cookie cache type.", Severity.error⟩]⟩) ∧
    (∀ name, spec.customCookie = some name → name ≠ "" →
      ((req.cookies.getD []).lookup name).getD "" = "" →
      generateCacheKey route req
        = Except.ok ⟨none,
            [⟨"Custom cookie \"" ++ name ++ "\" not found in request. Cache will not be applied.",
              Severity.warn⟩]⟩) := by
  constructor
  · rintro (h | h) <;> simp [generateCacheKey, hc, ht, h]
  · intro name hname hne hval
    simp [generateCacheKey, hc, ht, hname, hne, hval]

/-- Witness for the amended C6 at a concrete unset-name route. -/
theorem C6_custom_cookie_amended_witness :
    generateCacheKey ⟨"GET", "/cart", some ⟨none, "per-custom-cookie", none⟩⟩
        ⟨"/cart", none, some [], []⟩
      = Except.ok ⟨none,
          [⟨"Custom cookie is not defined for per-custom-cookie cache type.", Severity.error⟩]⟩ :=
  (C6_custom_cookie_amended _ _ _ rfl rfl).1 (Or.inl rfl)

/-- C7: the TTL passed to the store set call by either write wrapper is
`route.cache?.expire || 60`: exactly 60 when `expireSeconds` is omitted or
0, the configured value otherwise. -/
theorem C7_ttl_resolution (route : Route) (cacheKey body : String) (j : Json) (store : Store)
    (hready : store.ready = true) :
    (resSendWrapper route cacheKey store (JsVal.str body)).storeWrites
      = [(cacheKey, body, cacheExpireOrDefault route)] ∧
    (resJsonWrapper route cacheKey store j).storeWrites
      = [(cacheKey, stringifyJson j, cacheExpireOrDefault route)] ∧
    ((route.cache.bind (fun spec => spec.expire) = none ∨
      route.cache.bind (fun spec => spec.expire) = some 0) →
      cacheExpireOrDefault route = 60) ∧
    (∀ e : Nat, route.cache.bind (fun spec => spec.expire) = some e → e ≠ 0 →
      cacheExpireOrDefault route = e) := by
  refine ⟨?_, ?_, ?_, ?_⟩
  · simp [resSendWrapper, hready, jsTypeofObject, jsValToStoreString]
  · simp [resJsonWrapper, hready]
  · rintro (h | h) <;>
    · cases hc : route.cache with
      | none => simp [cacheExpireOrDefault, hc, DEFAULT_CACHE_TTL]
      | some spec =>
        rw [hc] at h
        simp at h
        simp [cacheExpireOrDefault, hc, h, DEFAULT_CACHE_TTL]
  · intro e he hne
    cases hc : route.cache with
    | none => rw [hc] at he; simp at he
    | some spec =>
      rw [hc] at he
      simp at he
      simp [cacheExpireOrDefault, hc, he, hne]

/-- Witness for C7 at a concrete route with `expire` omitted. -/
theorem C7_ttl_resolution_witness :
    (resSendWrapper ⟨"GET", "/users", some ⟨none, "always", none⟩⟩ "k" ⟨true, []⟩
        (JsVal.str "hello")).storeWrites
      = [("k", "hello", 60)] := by
  have h := C7_ttl_resolution ⟨"GET", "/users", some ⟨none, "always", none⟩⟩ "k" "hello"
    Json.null ⟨true, []⟩ rfl
  rw [h.1, h.2.2.1 (Or.inl rfl)]

/-- C8: a route with no cache spec gets a middleware that, for every
request and store state, reads and writes nothing, mutates no header,
writes no response, installs no wrapper, and always continues. -/
theorem C8_no_cachespec_pass_through (route : Route) (buildStore store : Store) (req : Request)
    (h : route.cache = none) :
    cache route buildStore req store
      = { storeReads := [], logs := [], headers := [], writes := [], nextCalled := true,
          sendWrapped := none, jsonWrapped := none, errorThrown := none } := by
  simp [cache, h, passOutcome]

/-- Witness for C8 at a concrete route. -/
theorem C8_no_cachespec_pass_through_witness :
    cache ⟨"GET", "/ping", none⟩ ⟨true, []⟩ ⟨"/ping", none, some [], []⟩ ⟨true, []⟩
      = { storeReads := [], logs := [], headers := [], writes := [], nextCalled := true,
          sendWrapped := none, jsonWrapped := none, errorThrown := none } :=
  C8_no_cachespec_pass_through _ _ _ _ rfl

/-- C9: for the `per-request-url` variant the derived key is
`cache:<method>:<req.url>` — the declared route path does not occur — so
two routes differing only in route path derive the identical key for every
request and can collide in the store. -/
theorem C9_per_request_url_ignores_route_path (r1 r2 : Route) (spec : CacheSpec) (req : Request)
    (h1 : r1.cache = some spec) (h2 : r2.cache = some spec)
    (ht : spec.type = "per-request-url") (hm : r1.method = r2.method) :
    generateCacheKey r1 req
      = Except.ok ⟨some ("cache:" ++ r1.method ++ ":" ++ req.url), []⟩ ∧
    generateCacheKey r1 req = generateCacheKey r2 req := by
  have gen : ∀ r : Route, r.cache = some spec →
      generateCacheKey r req = Except.ok ⟨some ("cache:" ++ r.method ++ ":" ++ req.url), []⟩ := by
    intro r hr
    simp [generateCacheKey, hr, ht]
  refine ⟨gen r1 h1, ?_⟩
  rw [gen r1 h1, gen r2 h2, hm]

/-- Witness for C9: two routes differing only in route path, one request. -/
theorem C9_per_request_url_ignores_route_path_witness :
    generateCacheKey ⟨"GET", "/a", some ⟨none, "per-request-url", none⟩⟩
        ⟨"/a?x=1", none, some [], []⟩
      = generateCacheKey ⟨"GET", "/b", some ⟨none, "per-request-url", none⟩⟩
        ⟨"/a?x=1", none, some [], []⟩ :=
  (C9_per_request_url_ignores_route_path
    ⟨"GET", "/a", some ⟨none, "per-request-url", none⟩⟩
    ⟨"GET", "/b", some ⟨none, "per-request-url", none⟩⟩
    ⟨none, "per-request-url", none⟩ ⟨"/a?x=1", none, some [], []⟩ rfl rfl rfl rfl).2

/-- C10: a present cache spec whose type is none of the four recognized
variants falls through the switch silently — no key, no log call from the
deriver — and the middleware then logs only the generic key-generation
warning and continues without touching the store. -/
theorem C10_unknown_variant_silent (route : Route) (req : Request) (spec : CacheSpec)
    (store : Store)
    (hc : route.cache = some spec)
    (h1 : spec.type ≠ "always") (h2 : spec.type ≠ "per-auth-token")
    (h3 : spec.type ≠ "per-request-url") (h4 : spec.type ≠ "per-custom-cookie")
    (hready : store.ready = true) :
    generateCacheKey route req = Except.ok ⟨none, []⟩ ∧
    cacheMiddlewareRun route req store
      = { storeReads := []
          logs := [⟨"Cache key generation failed. Cache will not be applied.", Severity.warn⟩]
          headers := [], writes := [], nextCalled := true,
          sendWrapped := none, jsonWrapped := none, errorThrown := none } := by
  have hkey : generateCacheKey route req = Except.ok ⟨none, []⟩ := by
    simp [generateCacheKey, hc, h1, h2, h3, h4]
  refine ⟨hkey, ?_⟩
  simp [cacheMiddlewareRun, hready, hkey]

/-- Witness for C10 at a concrete unrecognized variant. -/
theorem C10_unknown_variant_silent_witness :
    generateCacheKey ⟨"GET", "/u", some ⟨none, "sometimes", none⟩⟩ ⟨"/u", none, some [], []⟩
      = Except.ok ⟨none, []⟩ ∧
    cacheMiddlewareRun ⟨"GET", "/u", some ⟨none, "sometimes", none⟩⟩ ⟨"/u", none, some [], []⟩
        ⟨true, []⟩
      = { storeReads := []
          logs := [⟨"Cache key generation failed. Cache will not be applied.", Severity.warn⟩]
          headers := [], writes := [], nextCalled := true,
          sendWrapped := none, jsonWrapped := none, errorThrown := none } :=
  C10_unknown_variant_silent ⟨"GET", "/u", some ⟨none, "sometimes", none⟩⟩
    ⟨"/u", none, some [], []⟩ ⟨none, "sometimes", none⟩ ⟨true, []⟩
    rfl (by decide) (by decide) (by decide) (by decide) rfl

end ExpressRedisCache
